import Mathlib

/-!
Verification model of the caddy-extra-placeholders Caddy plugin
(`extra_placeholders.go`, `placeholder_time.go`, `placeholder_rand.go`,
`placeholder_hostinfo.go`, and the current `ServeHTTP` that dispatches to the
`set*Placeholders` helpers).

The plugin is, per request, a pure computation from (configuration, ambient
inputs) to a set of writes into the request's replacer (a string-keyed store).
The model makes the ambient inputs explicit in an `Env` record: the replacer
obtained from the request context (absent when the context type assertion
fails), the Caddy version strings, the random source outputs, the results of
the OS load-average and uptime queries (with `none` for a failed lookup), and
the two results of `time.Now()` (the current `ServeHTTP` calls `time.Now()`
once for the local-time placeholders and a second time, followed by `.UTC()`,
for the UTC placeholders).

Go `int` is 64 bits wide, so arithmetic on configuration values is modelled on
`Int` with an explicit wrap into `[-2^63, 2^63)` at each operation.
-/

/-- Two raised to 63, the magnitude bound of Go's 64-bit `int`. -/
def int64Bound : Int := 2 ^ 63

/-- Wrap an exact integer into Go `int` (two's-complement, 64 bits). -/
def wrap64 (n : Int) : Int := (n + int64Bound) % (2 * int64Bound) - int64Bound

/-- The proposition that `n` is representable as a Go 64-bit `int`. -/
def Int64Valid (n : Int) : Prop := -int64Bound ≤ n ∧ n < int64Bound

instance (n : Int) : Decidable (Int64Valid n) := by
  unfold Int64Valid
  infer_instance

/-- Model of Go `time.Time` as used by this plugin: an absolute instant
(seconds since the Unix epoch; the plugin only reads second-resolution
fields) together with the time zone attached to the value, given as its
offset east of UTC in seconds and its abbreviation. -/
structure GoTime where
  unix : Int
  offset : Int
  zoneName : String

/-- Model of Go `Time.UTC()`: same instant, zone replaced by UTC. -/
def GoTime.toUTC (t : GoTime) : GoTime := { unix := t.unix, offset := 0, zoneName := "UTC" }

/-- Seconds since the epoch on the wall clock of `t`'s zone; Go's
broken-down calendar fields are all derived from this quantity. -/
def GoTime.localAbs (t : GoTime) : Int := t.unix + t.offset

/-- Whole days since 1970-01-01 on the wall clock of `t`'s zone. -/
def GoTime.epochDays (t : GoTime) : Int := t.localAbs / 86400

/-- Seconds elapsed since local midnight. -/
def GoTime.secondsOfDay (t : GoTime) : Int := t.localAbs % 86400

/-- Model of Go `Time.Hour()`. -/
def GoTime.hour (t : GoTime) : Int := t.secondsOfDay / 3600

/-- Model of Go `Time.Minute()`. -/
def GoTime.minute (t : GoTime) : Int := t.secondsOfDay % 3600 / 60

/-- Model of Go `Time.Second()`. -/
def GoTime.second (t : GoTime) : Int := t.secondsOfDay % 60

/-- Civil date (year, month, day) from a count of days since 1970-01-01,
the standard proleptic-Gregorian conversion; it agrees with the calendar
arithmetic of Go's `time` package on every day number. -/
def civilFromDays (z0 : Int) : Int × Int × Int :=
  let z := z0 + 719468
  let era := z / 146097
  let doe := z % 146097
  let yoe := (doe - doe / 1460 + doe / 36524 - doe / 146096) / 365
  let y := yoe + era * 400
  let doy := doe - (365 * yoe + yoe / 4 - yoe / 100)
  let mp := (5 * doy + 2) / 153
  let d := doy - (153 * mp + 2) / 5 + 1
  let m := mp + (if mp < 10 then 3 else -9)
  (y + (if m ≤ 2 then 1 else 0), m, d)

/-- Days since 1970-01-01 of a civil date, inverse of `civilFromDays`. -/
def daysFromCivil (y0 m d : Int) : Int :=
  let y := y0 - (if m ≤ 2 then 1 else 0)
  let era := y / 400
  let yoe := y - era * 400
  let mp := m + (if 2 < m then -3 else 9)
  let doy := (153 * mp + 2) / 5 + d - 1
  let doe := yoe * 365 + yoe / 4 - yoe / 100 + doy
  era * 146097 + doe - 719468

/-- Model of Go `Time.Year()`. -/
def GoTime.year (t : GoTime) : Int := (civilFromDays t.epochDays).1

/-- Model of Go `int(t.Month())`. -/
def GoTime.month (t : GoTime) : Int := (civilFromDays t.epochDays).2.1

/-- Model of Go `Time.Day()`. -/
def GoTime.day (t : GoTime) : Int := (civilFromDays t.epochDays).2.2

/-- Model of Go `Time.Weekday()` (Sunday = 0; day 0 of the epoch was a
Thursday = 4). -/
def GoTime.weekday (t : GoTime) : Int := (t.epochDays + 4) % 7

/-- Model of Go `Time.ISOWeek()`: `(isoYear, isoWeek)`. Go shifts the date
to the Thursday of the same ISO week (`d := Thursday - t.Weekday(); if
d == 4 { d = -3 }`; then `AddDate(0, 0, d)`) and returns that day's year and
`(yearDay-1)/7 + 1`. -/
def GoTime.isoWeek (t : GoTime) : Int × Int :=
  let wd := t.weekday
  let d := if 4 - wd = 4 then -3 else 4 - wd
  let shifted := t.epochDays + d
  let y := (civilFromDays shifted).1
  let yearDay := shifted - daysFromCivil y 1 1 + 1
  (y, (yearDay - 1) / 7 + 1)

/-- Model of Go `fmt.Sprintf("%02d", n)`: minimum width two, zero padded. -/
def sprintf02d (n : Int) : String :=
  if 0 ≤ n ∧ n < 10 then "0" ++ toString n else toString n

/-- Model of Go's year rendering for the `2006` layout token: minimum width
four, zero padded. -/
def sprintf04d (n : Int) : String :=
  if 0 ≤ n ∧ n < 10 then "000" ++ toString n
  else if 0 ≤ n ∧ n < 100 then "00" ++ toString n
  else if 0 ≤ n ∧ n < 1000 then "0" ++ toString n
  else toString n

/-- Model of Go's rendering of a zone offset for the `-0700` layout token:
sign, then hours and minutes, each two digits. -/
def offsetString (off : Int) : String :=
  let a := if off < 0 then -off else off
  (if off < 0 then "-" else "+") ++ sprintf02d (a / 3600) ++ sprintf02d (a % 3600 / 60)

/-- Model of Go `Time.Format` over a layout given as a character list,
covering the layout tokens this plugin uses: the default custom format
`"2006-01-02 15:04:05"`, the zone-offset layout `"-0700"`, and the
zone-abbreviation layout `"MST"`; every other character passes through as a
literal. -/
def formatChars (t : GoTime) : List Char → String
  | '2' :: '0' :: '0' :: '6' :: r => sprintf04d t.year ++ formatChars t r
  | '0' :: '1' :: r => sprintf02d t.month ++ formatChars t r
  | '0' :: '2' :: r => sprintf02d t.day ++ formatChars t r
  | '0' :: '4' :: r => sprintf02d t.minute ++ formatChars t r
  | '0' :: '5' :: r => sprintf02d t.second ++ formatChars t r
  | '1' :: '5' :: r => sprintf02d t.hour ++ formatChars t r
  | '-' :: '0' :: '7' :: '0' :: '0' :: r => offsetString t.offset ++ formatChars t r
  | 'M' :: 'S' :: 'T' :: r => t.zoneName ++ formatChars t r
  | c :: r => String.singleton c ++ formatChars t r
  | [] => ""

/-- Model of Go `Time.Format`. -/
def GoTime.format (t : GoTime) (layout : String) : String := formatChars t layout.toList

/-- Model of Go `time.Duration.String()` for a whole number of seconds, as
produced by `time.Duration(uptime) * time.Second`. -/
def durationString (u : Nat) : String :=
  if u < 60 then toString u ++ "s"
  else if u < 3600 then toString (u / 60) ++ "m" ++ toString (u % 60) ++ "s"
  else toString (u / 3600) ++ "h" ++ toString (u % 3600 / 60) ++ "m" ++ toString (u % 60) ++ "s"

/-- A value stored in the Caddy replacer by this plugin: the plugin writes
Go `int`, `string`, and `float64` values. -/
inductive RVal where
  | int (n : Int)
  | str (s : String)
  | float (x : Float)

/-- Model of the Caddy replacer reachable from the request context: the
journal of its key/value bindings, most recent first. -/
def Replacer := List (String × RVal)

/-- Model of `repl.Set(key, value)`: bind `key` to `value`, shadowing any
older binding of the same key. -/
def Rset (k : String) (v : RVal) (r : Replacer) : Replacer := (k, v) :: r

/-- Look up the current binding of a key in the replacer. -/
def rget (k : String) : Replacer → Option RVal
  | [] => none
  | (k2, v) :: r => if k = k2 then some v else rget k r

/-- The keys bound in a replacer, most recently written first. -/
def keysOf (r : Replacer) : List String := r.map Prod.fst

/-- The configuration of the plugin (`ExtraPlaceholders` struct): the
inclusive bounds for `extra.rand.int` and the custom time format. Go's `int`
fields are modelled as `Int` (a representable configuration satisfies
`Int64Valid` on both bounds). -/
structure ExtraPlaceholders where
  RandIntMin : Int
  RandIntMax : Int
  TimeFormatCustom : String

/-- Model of `ExtraPlaceholders.Validate`: an error (`some` message) exactly
when `RandIntMax <= RandIntMin`. -/
def ExtraPlaceholders.Validate (e : ExtraPlaceholders) : Option String :=
  if e.RandIntMax ≤ e.RandIntMin then
    some "invalid configuration: RandIntMax must be greater than RandIntMin"
  else none

/-- Model of Go `rand.Intn(n)` fed by one output `rnd` of the random source:
`none` models the panic on `n <= 0`, otherwise some value in `[0, n)`. -/
def randIntn (n : Int) (rnd : Nat) : Option Int :=
  if n ≤ 0 then none else some ((rnd : Int) % n)

/-- The argument `e.RandIntMax - e.RandIntMin + 1` passed to `rand.Intn` in
the configured-range branch, evaluated in Go 64-bit `int` arithmetic. -/
def randIntnArg (e : ExtraPlaceholders) : Int :=
  wrap64 (wrap64 (e.RandIntMax - e.RandIntMin) + 1)

/-- The ambient, per-request inputs of `ServeHTTP`: the replacer from the
request context (`none` when the context carries no replacer and the type
assertion fails), the two strings of `caddy.Version()`, the outputs of the
random source consumed by `rand.Float64()` and `rand.Intn`, the results of
`load.Avg()` and `host.Uptime()` (`none` on lookup error), and the results
of the first and second call to `time.Now()`. -/
structure Env where
  repl : Option Replacer
  caddyVersionSimple : String
  caddyVersionFull : String
  randFloat : Float
  randNat : Nat
  loadavg : Option (Float × Float × Float)
  uptimeSec : Option Nat
  now1 : GoTime
  now2 : GoTime

/-- Model of `setCaddyPlaceholders` (inline in the earlier `ServeHTTP`):
sets the two Caddy version placeholders. -/
def setCaddyPlaceholders (env : Env) (repl : Replacer) : Replacer :=
  Rset "extra.caddy.version.full" (RVal.str env.caddyVersionFull)
    (Rset "extra.caddy.version.simple" (RVal.str env.caddyVersionSimple) repl)

/-- Model of `setRandPlaceholders` (`placeholder_rand.go`): sets
`extra.rand.float`, then `extra.rand.int` from the configured range when
`RandIntMax > RandIntMin` and from `rand.Intn(101)` otherwise. `none`
models the propagated panic of `rand.Intn` on a non-positive argument. -/
def setRandPlaceholders (e : ExtraPlaceholders) (env : Env) (repl : Replacer) :
    Option Replacer :=
  let repl := Rset "extra.rand.float" (RVal.float env.randFloat) repl
  if e.RandIntMax > e.RandIntMin then
    match randIntn (randIntnArg e) env.randNat with
    | some v => some (Rset "extra.rand.int" (RVal.int (wrap64 (v + e.RandIntMin))) repl)
    | none => none
  else
    match randIntn 101 env.randNat with
    | some v => some (Rset "extra.rand.int" (RVal.int v) repl)
    | none => none

/-- Model of `setLoadavgPlaceholders` (inline in the earlier `ServeHTTP`):
on `load.Avg()` success set the three load-average placeholders, on error
set nothing. -/
def setLoadavgPlaceholders (env : Env) (repl : Replacer) : Replacer :=
  match env.loadavg with
  | some (l1, l5, l15) =>
      Rset "extra.loadavg.15" (RVal.float l15)
        (Rset "extra.loadavg.5" (RVal.float l5)
          (Rset "extra.loadavg.1" (RVal.float l1) repl))
  | none => repl

/-- Model of `setHostinfoPlaceholders` (`placeholder_hostinfo.go`): on
`host.Uptime()` success set the rendered duration, on error set the literal
sentinel string. -/
def setHostinfoPlaceholders (env : Env) (repl : Replacer) : Replacer :=
  match env.uptimeSec with
  | some u => Rset "extra.hostinfo.uptime" (RVal.str (durationString u)) repl
  | none => Rset "extra.hostinfo.uptime" (RVal.str "error retrieving uptime") repl

/-- Model of `setTimePlaceholders` (`placeholder_time.go`): sets the fifteen
time placeholders under `extra.time.now` or, when `isUTC` is true, under
`extra.time.now.utc`, in source order. -/
def setTimePlaceholders (e : ExtraPlaceholders) (repl : Replacer) (t : GoTime)
    (isUTC : Bool) : Replacer :=
  let base := if isUTC then "extra.time.now" ++ ".utc" else "extra.time.now"
  let repl := Rset (base ++ ".month") (RVal.int t.month) repl
  let repl := Rset (base ++ ".month_padded") (RVal.str (sprintf02d t.month)) repl
  let repl := Rset (base ++ ".day") (RVal.int t.day) repl
  let repl := Rset (base ++ ".day_padded") (RVal.str (sprintf02d t.day)) repl
  let repl := Rset (base ++ ".hour") (RVal.int t.hour) repl
  let repl := Rset (base ++ ".hour_padded") (RVal.str (sprintf02d t.hour)) repl
  let repl := Rset (base ++ ".minute") (RVal.int t.minute) repl
  let repl := Rset (base ++ ".minute_padded") (RVal.str (sprintf02d t.minute)) repl
  let repl := Rset (base ++ ".second") (RVal.int t.second) repl
  let repl := Rset (base ++ ".second_padded") (RVal.str (sprintf02d t.second)) repl
  let repl := Rset (base ++ ".timezone_offset") (RVal.str (t.format "-0700")) repl
  let repl := Rset (base ++ ".timezone_name") (RVal.str (t.format "MST")) repl
  let iso := t.isoWeek
  let repl := Rset (base ++ ".iso_week") (RVal.int iso.2) repl
  let repl := Rset (base ++ ".iso_year") (RVal.int iso.1) repl
  Rset (base ++ ".custom") (RVal.str (t.format e.TimeFormatCustom)) repl

/-- The result of one `ServeHTTP` invocation: an HTTP error returned before
any placeholder is set, a propagated panic of `rand.Intn`, or success with
the resulting replacer (after which the next handler runs). -/
inductive Outcome where
  | httpError (code : Nat)
  | panicked
  | ok (repl : Replacer)

/-- True when the invocation did not reach the next handler. -/
def Outcome.aborted : Outcome → Bool
  | .ok _ => false
  | _ => true

/-- Model of the current `ServeHTTP`: retrieve the replacer from the request
context (internal server error 500 when absent), then set the Caddy
version, random, load-average, host-info, local-time, and UTC-time
placeholders; the local placeholders use the first `time.Now()` result and
the UTC placeholders use the second `time.Now()` result converted with
`.UTC()`. -/
def ServeHTTP (e : ExtraPlaceholders) (env : Env) : Outcome :=
  match env.repl with
  | none => Outcome.httpError 500
  | some repl =>
    let repl := setCaddyPlaceholders env repl
    match setRandPlaceholders e env repl with
    | none => Outcome.panicked
    | some repl =>
      let repl := setLoadavgPlaceholders env repl
      let repl := setHostinfoPlaceholders env repl
      let repl := setTimePlaceholders e repl env.now1 false
      let repl := setTimePlaceholders e repl (GoTime.toUTC env.now2) true
      Outcome.ok repl

/-- The list of placeholder keys one invocation writes, observed by running
the handler on an empty replacer (an aborted invocation contributes no
key set). -/
def producedKeys (e : ExtraPlaceholders) (env : Env) : List String :=
  match ServeHTTP e { env with repl := some [] } with
  | Outcome.ok r => keysOf r
  | _ => []

/-- The proposition that one `ServeHTTP` invocation hits the `rand.Intn`
panic: the configured-range branch is taken and its argument, computed in
64-bit arithmetic, is not positive. -/
def panics (e : ExtraPlaceholders) : Prop :=
  e.RandIntMax > e.RandIntMin ∧ randIntnArg e ≤ 0

instance (e : ExtraPlaceholders) : Decidable (panics e) := by
  unfold panics
  infer_instance

/-- The integer that a non-panicking invocation writes to `extra.rand.int`,
as a function of the configuration and the random-source output. -/
def randValue (e : ExtraPlaceholders) (rnd : Nat) : Int :=
  if e.RandIntMax > e.RandIntMin then wrap64 ((rnd : Int) % randIntnArg e + e.RandIntMin)
  else (rnd : Int) % 101

/-- The replacer produced by a non-panicking invocation of `ServeHTTP` that
started from replacer `r0`. -/
def finalReplacer (e : ExtraPlaceholders) (env : Env) (r0 : Replacer) : Replacer :=
  setTimePlaceholders e
    (setTimePlaceholders e
      (setHostinfoPlaceholders env
        (setLoadavgPlaceholders env
          (Rset "extra.rand.int" (RVal.int (randValue e env.randNat))
            (Rset "extra.rand.float" (RVal.float env.randFloat)
              (setCaddyPlaceholders env r0)))))
      env.now1 false)
    (GoTime.toUTC env.now2) true

/-- The value a finished invocation has bound to key `k`; `none` when the
invocation aborted (or the key is unset). -/
def lookupOk (e : ExtraPlaceholders) (env : Env) (k : String) : Option RVal :=
  match ServeHTTP e env with
  | Outcome.ok r => rget k r
  | _ => none

/-! ### Concrete configurations and environments used by witnesses -/

/-- A well-formed sample configuration. -/
def eW : ExtraPlaceholders :=
  { RandIntMin := 10, RandIntMax := 50, TimeFormatCustom := "2006-01-02 15:04:05" }

/-- A sample configuration with `RandIntMax ≤ RandIntMin`. -/
def eFall : ExtraPlaceholders :=
  { RandIntMin := 5, RandIntMax := 5, TimeFormatCustom := "2006-01-02 15:04:05" }

/-- A configuration whose range width overflows 64-bit arithmetic. -/
def eOverflow : ExtraPlaceholders :=
  { RandIntMin := -2, RandIntMax := 2 ^ 63 - 1, TimeFormatCustom := "" }

/-- A sample environment: replacer present, all OS lookups successful. -/
def envW : Env :=
  { repl := some [], caddyVersionSimple := "v2.8.4", caddyVersionFull := "v2.8.4 h1",
    randFloat := 0, randNat := 7, loadavg := some (0, 0, 0), uptimeSec := some 90061,
    now1 := { unix := 1715000000, offset := 7200, zoneName := "CEST" },
    now2 := { unix := 1715000000, offset := 7200, zoneName := "CEST" } }

/-- A sample environment whose request context carries no replacer. -/
def envNoRepl : Env :=
  { envW with repl := none }

/-- An environment whose two `time.Now()` calls straddle a second boundary:
the second call returns one second after the first. -/
def envSplitSecond : Env :=
  { envW with
    now1 := { unix := 0, offset := 3600, zoneName := "CET" },
    now2 := { unix := 1, offset := 3600, zoneName := "CET" } }

/-- An environment identical to `envW` except that the load-average lookup
fails. -/
def envLoadFail : Env := { envW with loadavg := none }

example : civilFromDays 0 = (1970, 1, 1) := by decide

example : civilFromDays 20088 = (2024, 12, 31) := by decide

example : GoTime.isoWeek { unix := 20088 * 86400, offset := 0, zoneName := "UTC" } = (2025, 1) := by decide

example : GoTime.format { unix := 1715000000, offset := 0, zoneName := "UTC" } "2006-01-02 15:04:05" = "2024-05-06 12:53:20" := by decide

/-! ### Infrastructure lemmas -/

theorem rget_Rset (k k2 : String) (v : RVal) (r : Replacer) :
    rget k (Rset k2 v r) = if k = k2 then some v else rget k r := rfl

theorem wrap64_eq_of_valid (n : Int) (h : Int64Valid n) : wrap64 n = n := by
  unfold Int64Valid at h
  unfold wrap64 int64Bound at *
  omega

theorem ServeHTTP_eq (e : ExtraPlaceholders) (env : Env) (r0 : Replacer)
    (h : env.repl = some r0) :
    ServeHTTP e env =
      if panics e then Outcome.panicked else Outcome.ok (finalReplacer e env r0) := by
  unfold ServeHTTP setRandPlaceholders randIntn
  rw [h]
  by_cases hgt : e.RandIntMax > e.RandIntMin
  · by_cases hle : randIntnArg e ≤ 0
    · simp only [if_pos hgt, if_pos hle, if_pos (show panics e from And.intro hgt hle)]
    · simp only [if_pos hgt, if_neg hle, if_neg (fun hc : panics e => hle hc.2),
        finalReplacer, randValue]
  · have hnp : ¬ panics e := fun hc => hgt hc.1
    simp only [if_neg hgt, if_neg (by omega : ¬ (101 : Int) ≤ 0), if_neg hnp,
      finalReplacer, randValue]

theorem lookupOk_eq (e : ExtraPlaceholders) (env : Env) (r0 : Replacer)
    (h : env.repl = some r0) (hnp : ¬ panics e) (k : String) :
    lookupOk e env k = rget k (finalReplacer e env r0) := by
  unfold lookupOk
  rw [ServeHTTP_eq e env r0 h, if_neg hnp]

theorem not_aborted_inv (e : ExtraPlaceholders) (env : Env)
    (h : (ServeHTTP e env).aborted = false) :
    ∃ r0, env.repl = some r0 ∧ ¬ panics e := by
  rcases henv : env.repl with _ | r0
  · unfold ServeHTTP at h
    rw [henv] at h
    exact absurd h (by simp [Outcome.aborted])
  · refine ⟨r0, rfl, ?_⟩
    intro hp
    rw [ServeHTTP_eq e env r0 henv, if_pos hp] at h
    exact absurd h (by simp [Outcome.aborted])

theorem rget_final_randInt (e : ExtraPlaceholders) (env : Env) (r0 : Replacer) :
    rget "extra.rand.int" (finalReplacer e env r0) = some (RVal.int (randValue e env.randNat)) := by
  rcases h1 : env.loadavg with _ | ⟨l1, l5, l15⟩ <;>
    rcases h2 : env.uptimeSec with _ | u <;>
      simp only [finalReplacer, setLoadavgPlaceholders, setHostinfoPlaceholders, h1, h2] <;>
        rfl

theorem randIntnArg_dichotomy (e : ExtraPlaceholders)
    (hmin : Int64Valid e.RandIntMin) (hmax : Int64Valid e.RandIntMax)
    (hlt : e.RandIntMin < e.RandIntMax) :
    randIntnArg e ≤ 0 ∨ randIntnArg e = e.RandIntMax - e.RandIntMin + 1 := by
  unfold Int64Valid int64Bound at hmin hmax
  unfold randIntnArg wrap64 int64Bound
  omega

theorem randWritten_range (e : ExtraPlaceholders) (rnd : Nat)
    (hmin : Int64Valid e.RandIntMin) (hmax : Int64Valid e.RandIntMax)
    (hlt : e.RandIntMin < e.RandIntMax) (hpos : 0 < randIntnArg e) :
    e.RandIntMin ≤ wrap64 ((rnd : Int) % randIntnArg e + e.RandIntMin) ∧
      wrap64 ((rnd : Int) % randIntnArg e + e.RandIntMin) ≤ e.RandIntMax := by
  have hargeq : randIntnArg e = e.RandIntMax - e.RandIntMin + 1 := by
    rcases randIntnArg_dichotomy e hmin hmax hlt with h | h
    · omega
    · exact h
  have h0 : 0 ≤ (rnd : Int) % randIntnArg e := Int.emod_nonneg _ (by omega)
  have h1 : (rnd : Int) % randIntnArg e < randIntnArg e := Int.emod_lt_of_pos _ hpos
  unfold Int64Valid int64Bound at hmin hmax
  have hv : Int64Valid ((rnd : Int) % randIntnArg e + e.RandIntMin) := by
    unfold Int64Valid int64Bound
    omega
  rw [wrap64_eq_of_valid _ hv]
  omega

theorem GoTime.hour_bounds (t : GoTime) : 0 ≤ t.hour ∧ t.hour ≤ 23 := by
  unfold GoTime.hour GoTime.secondsOfDay GoTime.localAbs
  omega

theorem GoTime.minute_bounds (t : GoTime) : 0 ≤ t.minute ∧ t.minute ≤ 59 := by
  unfold GoTime.minute GoTime.secondsOfDay GoTime.localAbs
  omega

theorem GoTime.second_bounds (t : GoTime) : 0 ≤ t.second ∧ t.second ≤ 59 := by
  unfold GoTime.second GoTime.secondsOfDay GoTime.localAbs
  omega

theorem GoTime.month_bounds (t : GoTime) : 1 ≤ t.month ∧ t.month ≤ 12 := by
  unfold GoTime.month civilFromDays GoTime.epochDays GoTime.localAbs
  dsimp only
  split <;> omega

theorem GoTime.day_bounds (t : GoTime) : 1 ≤ t.day ∧ t.day ≤ 31 := by
  unfold GoTime.day civilFromDays GoTime.epochDays GoTime.localAbs
  dsimp only
  omega

theorem sprintf02d_length (n : Int) (h0 : 0 ≤ n) (h99 : n ≤ 99) :
    (sprintf02d n).length = 2 := by
  interval_cases n <;> decide

theorem pad_of_eq (a v : Int) (h0 : 0 ≤ a) (h99 : a ≤ 99)
    (h : (some (RVal.int a) : Option RVal) = some (RVal.int v)) :
    (some (RVal.str (sprintf02d a)) : Option RVal) = some (RVal.str (sprintf02d v)) ∧
      (sprintf02d v).length = 2 := by
  have h2 := Option.some.inj h
  have h3 : a = v := by injection h2
  subst h3
  exact ⟨rfl, sprintf02d_length a h0 h99⟩

theorem ServeHTTP_none (e : ExtraPlaceholders) (env : Env) (h : env.repl = none) :
    ServeHTTP e env = Outcome.httpError 500 := by
  unfold ServeHTTP
  rw [h]

/-! ### Claims -/

/-- C9: `Validate` returns an error if and only if `RandIntMax ≤ RandIntMin`;
a configuration with `max ≤ min` is rejected at validation time and every
configuration with `max > min` passes. -/
theorem claim_C9_validate_iff (e : ExtraPlaceholders) :
    (ExtraPlaceholders.Validate e).isSome ↔ e.RandIntMax ≤ e.RandIntMin := by
  unfold ExtraPlaceholders.Validate
  by_cases h : e.RandIntMax ≤ e.RandIntMin <;> simp [h]

/-- C8: when the request context carries no replacer, `ServeHTTP` returns an
internal server error (HTTP 500) for that request; the `httpError` outcome
carries no replacer, so no placeholder was set, and the model is a pure
per-request function, so other requests are unaffected. -/
theorem claim_C8_missing_replacer_500 (e : ExtraPlaceholders) (env : Env)
    (h : env.repl = none) : ServeHTTP e env = Outcome.httpError 500 :=
  ServeHTTP_none e env h

theorem claim_C8_witness :
    envNoRepl.repl = none ∧ ServeHTTP eW envNoRepl = Outcome.httpError 500 :=
  ⟨rfl, claim_C8_missing_replacer_500 eW envNoRepl rfl⟩

/-- C2: for every representable configuration with `RandIntMax > RandIntMin`,
any value an invocation writes to `extra.rand.int` lies in the closed
interval `[RandIntMin, RandIntMax]`. -/
theorem claim_C2_rand_int_in_range (e : ExtraPlaceholders) (env : Env) (v : Int)
    (hmin : Int64Valid e.RandIntMin) (hmax : Int64Valid e.RandIntMax)
    (hlt : e.RandIntMin < e.RandIntMax)
    (hv : lookupOk e env "extra.rand.int" = some (RVal.int v)) :
    e.RandIntMin ≤ v ∧ v ≤ e.RandIntMax := by
  rcases henv : env.repl with _ | r0
  · unfold lookupOk at hv
    rw [ServeHTTP_none e env henv] at hv
    exact absurd hv (by simp)
  · by_cases hp : panics e
    · unfold lookupOk at hv
      rw [ServeHTTP_eq e env r0 henv, if_pos hp] at hv
      exact absurd hv (by simp)
    · rw [lookupOk_eq e env r0 henv hp, rget_final_randInt] at hv
      have h2 : randValue e env.randNat = v := by
        have h3 := Option.some.inj hv
        injection h3
      have hpos : 0 < randIntnArg e := by
        unfold panics at hp
        push_neg at hp
        exact hp hlt
      unfold randValue at h2
      rw [if_pos (show e.RandIntMax > e.RandIntMin from hlt)] at h2
      subst h2
      exact randWritten_range e env.randNat hmin hmax hlt hpos

theorem claim_C2_witness :
    Int64Valid (10 : Int) ∧ Int64Valid (50 : Int) ∧ (10 : Int) < 50 ∧
      (10 : Int) ≤ 17 ∧ (17 : Int) ≤ 50 :=
  ⟨by decide, by decide, by decide,
    claim_C2_rand_int_in_range eW envW 17 (by decide) (by decide) (by decide) rfl⟩

/-- C3: for every configuration with `RandIntMax ≤ RandIntMin`, an
invocation whose context carries a replacer does not abort and writes to
`extra.rand.int` a fallback value in the default range `[0, 100]`. -/
theorem claim_C3_fallback (e : ExtraPlaceholders) (env : Env) (r0 : Replacer)
    (hrepl : env.repl = some r0) (hle : e.RandIntMax ≤ e.RandIntMin) :
    (ServeHTTP e env).aborted = false ∧
      ∃ v, lookupOk e env "extra.rand.int" = some (RVal.int v) ∧ 0 ≤ v ∧ v ≤ 100 := by
  have hnp : ¬ panics e := fun hc => absurd hc.1 (not_lt.mpr hle)
  constructor
  · rw [ServeHTTP_eq e env r0 hrepl, if_neg hnp]
    rfl
  · refine ⟨(env.randNat : Int) % 101, ?_, ?_, ?_⟩
    · rw [lookupOk_eq e env r0 hrepl hnp, rget_final_randInt]
      unfold randValue
      rw [if_neg (show ¬ e.RandIntMax > e.RandIntMin from not_lt.mpr hle)]
    · exact Int.emod_nonneg _ (by omega)
    · omega

theorem claim_C3_witness :
    (ServeHTTP eFall envW).aborted = false ∧
      ∃ v, lookupOk eFall envW "extra.rand.int" = some (RVal.int v) ∧ 0 ≤ v ∧ v ≤ 100 :=
  claim_C3_fallback eFall envW [] rfl (by decide)

/-- C10 counterexample: a representable configuration with
`RandIntMax > RandIntMin` for which the machine-width computation
`RandIntMax - RandIntMin + 1` is not strictly positive, so `rand.Intn`
panic is reached. -/
theorem claim_C10_counterexample :
    eOverflow.RandIntMin < eOverflow.RandIntMax ∧ randIntnArg eOverflow ≤ 0 ∧
      ServeHTTP eOverflow envW = Outcome.panicked := by
  refine ⟨by decide, by decide, ?_⟩
  rfl

/-- C10 (amended): for every representable configuration with
`RandIntMax > RandIntMin` whose exact range width `max - min + 1` also fits
in a 64-bit int (no overflow), the argument passed to `rand.Intn` equals
`max - min + 1` and is strictly positive, making the panic branch
unreachable. -/
theorem claim_C10_amended_arg_pos (e : ExtraPlaceholders)
    (hmin : Int64Valid e.RandIntMin) (hmax : Int64Valid e.RandIntMax)
    (hlt : e.RandIntMin < e.RandIntMax)
    (hnof : e.RandIntMax - e.RandIntMin + 1 ≤ 2 ^ 63 - 1) :
    randIntnArg e = e.RandIntMax - e.RandIntMin + 1 ∧ 0 < randIntnArg e := by
  unfold Int64Valid int64Bound at hmin hmax
  unfold randIntnArg wrap64 int64Bound
  omega

theorem claim_C10_witness :
    randIntnArg eW = 41 ∧ 0 < randIntnArg eW :=
  claim_C10_amended_arg_pos eW (by decide) (by decide) (by decide) (by decide)

/-- C5: on every finished invocation, `extra.time.now.utc.timezone_offset`
is the string `"+0000"` and `extra.time.now.utc.timezone_name` is the
literal string `"UTC"`. -/
theorem claim_C5_utc_zone_constants (e : ExtraPlaceholders) (env : Env)
    (h : (ServeHTTP e env).aborted = false) :
    lookupOk e env "extra.time.now.utc.timezone_offset" = some (RVal.str "+0000") ∧
      lookupOk e env "extra.time.now.utc.timezone_name" = some (RVal.str "UTC") := by
  obtain ⟨r0, hrepl, hnp⟩ := not_aborted_inv e env h
  rw [lookupOk_eq e env r0 hrepl hnp, lookupOk_eq e env r0 hrepl hnp]
  exact ⟨rfl, rfl⟩

theorem claim_C5_witness :
    (ServeHTTP eW envW).aborted = false ∧
      lookupOk eW envW "extra.time.now.utc.timezone_offset" = some (RVal.str "+0000") ∧
        lookupOk eW envW "extra.time.now.utc.timezone_name" = some (RVal.str "UTC") :=
  ⟨rfl, claim_C5_utc_zone_constants eW envW rfl⟩

/-- C4: on every finished invocation and for every field among month, day,
hour, minute, second, the `_padded` placeholder equals the unpadded
placeholder's value formatted to exactly two digits with a leading zero,
under both the local and the UTC prefix. -/
theorem claim_C4_padded_fields (e : ExtraPlaceholders) (env : Env)
    (h : (ServeHTTP e env).aborted = false) :
    (∀ v, lookupOk e env "extra.time.now.month" = some (RVal.int v) →
        lookupOk e env "extra.time.now.month_padded" = some (RVal.str (sprintf02d v)) ∧
          (sprintf02d v).length = 2) ∧
    (∀ v, lookupOk e env "extra.time.now.day" = some (RVal.int v) →
        lookupOk e env "extra.time.now.day_padded" = some (RVal.str (sprintf02d v)) ∧
          (sprintf02d v).length = 2) ∧
    (∀ v, lookupOk e env "extra.time.now.hour" = some (RVal.int v) →
        lookupOk e env "extra.time.now.hour_padded" = some (RVal.str (sprintf02d v)) ∧
          (sprintf02d v).length = 2) ∧
    (∀ v, lookupOk e env "extra.time.now.minute" = some (RVal.int v) →
        lookupOk e env "extra.time.now.minute_padded" = some (RVal.str (sprintf02d v)) ∧
          (sprintf02d v).length = 2) ∧
    (∀ v, lookupOk e env "extra.time.now.second" = some (RVal.int v) →
        lookupOk e env "extra.time.now.second_padded" = some (RVal.str (sprintf02d v)) ∧
          (sprintf02d v).length = 2) ∧
    (∀ v, lookupOk e env "extra.time.now.utc.month" = some (RVal.int v) →
        lookupOk e env "extra.time.now.utc.month_padded" = some (RVal.str (sprintf02d v)) ∧
          (sprintf02d v).length = 2) ∧
    (∀ v, lookupOk e env "extra.time.now.utc.day" = some (RVal.int v) →
        lookupOk e env "extra.time.now.utc.day_padded" = some (RVal.str (sprintf02d v)) ∧
          (sprintf02d v).length = 2) ∧
    (∀ v, lookupOk e env "extra.time.now.utc.hour" = some (RVal.int v) →
        lookupOk e env "extra.time.now.utc.hour_padded" = some (RVal.str (sprintf02d v)) ∧
          (sprintf02d v).length = 2) ∧
    (∀ v, lookupOk e env "extra.time.now.utc.minute" = some (RVal.int v) →
        lookupOk e env "extra.time.now.utc.minute_padded" = some (RVal.str (sprintf02d v)) ∧
          (sprintf02d v).length = 2) ∧
    (∀ v, lookupOk e env "extra.time.now.utc.second" = some (RVal.int v) →
        lookupOk e env "extra.time.now.utc.second_padded" = some (RVal.str (sprintf02d v)) ∧
          (sprintf02d v).length = 2) := by
  obtain ⟨r0, hrepl, hnp⟩ := not_aborted_inv e env h
  have hl := lookupOk_eq e env r0 hrepl hnp
  refine ⟨?_, ?_, ?_, ?_, ?_, ?_, ?_, ?_, ?_, ?_⟩
  · intro v hv
    rw [hl] at hv
    rw [hl]
    exact pad_of_eq (GoTime.month env.now1) v
      (by have := GoTime.month_bounds env.now1; omega)
      (by have := GoTime.month_bounds env.now1; omega) hv
  · intro v hv
    rw [hl] at hv
    rw [hl]
    exact pad_of_eq (GoTime.day env.now1) v
      (by have := GoTime.day_bounds env.now1; omega)
      (by have := GoTime.day_bounds env.now1; omega) hv
  · intro v hv
    rw [hl] at hv
    rw [hl]
    exact pad_of_eq (GoTime.hour env.now1) v
      (by have := GoTime.hour_bounds env.now1; omega)
      (by have := GoTime.hour_bounds env.now1; omega) hv
  · intro v hv
    rw [hl] at hv
    rw [hl]
    exact pad_of_eq (GoTime.minute env.now1) v
      (by have := GoTime.minute_bounds env.now1; omega)
      (by have := GoTime.minute_bounds env.now1; omega) hv
  · intro v hv
    rw [hl] at hv
    rw [hl]
    exact pad_of_eq (GoTime.second env.now1) v
      (by have := GoTime.second_bounds env.now1; omega)
      (by have := GoTime.second_bounds env.now1; omega) hv
  · intro v hv
    rw [hl] at hv
    rw [hl]
    exact pad_of_eq (GoTime.month (GoTime.toUTC env.now2)) v
      (by have := GoTime.month_bounds (GoTime.toUTC env.now2); omega)
      (by have := GoTime.month_bounds (GoTime.toUTC env.now2); omega) hv
  · intro v hv
    rw [hl] at hv
    rw [hl]
    exact pad_of_eq (GoTime.day (GoTime.toUTC env.now2)) v
      (by have := GoTime.day_bounds (GoTime.toUTC env.now2); omega)
      (by have := GoTime.day_bounds (GoTime.toUTC env.now2); omega) hv
  · intro v hv
    rw [hl] at hv
    rw [hl]
    exact pad_of_eq (GoTime.hour (GoTime.toUTC env.now2)) v
      (by have := GoTime.hour_bounds (GoTime.toUTC env.now2); omega)
      (by have := GoTime.hour_bounds (GoTime.toUTC env.now2); omega) hv
  · intro v hv
    rw [hl] at hv
    rw [hl]
    exact pad_of_eq (GoTime.minute (GoTime.toUTC env.now2)) v
      (by have := GoTime.minute_bounds (GoTime.toUTC env.now2); omega)
      (by have := GoTime.minute_bounds (GoTime.toUTC env.now2); omega) hv
  · intro v hv
    rw [hl] at hv
    rw [hl]
    exact pad_of_eq (GoTime.second (GoTime.toUTC env.now2)) v
      (by have := GoTime.second_bounds (GoTime.toUTC env.now2); omega)
      (by have := GoTime.second_bounds (GoTime.toUTC env.now2); omega) hv

theorem claim_C4_witness :
    (ServeHTTP eW envW).aborted = false ∧
      lookupOk eW envW "extra.time.now.month_padded" = some (RVal.str (sprintf02d 5)) ∧
        (sprintf02d 5).length = 2 :=
  ⟨rfl, (claim_C4_padded_fields eW envW rfl).1 5 rfl⟩

/-- C1: evaluation at the failing input. `ServeHTTP` calls `time.Now()`
twice; in `envSplitSecond` the second call returns one second after the
first (the calls straddle a second boundary). The local placeholders come
from the first instant (second = 0), but `extra.time.now.utc.second` is 1,
whereas the first instant converted to UTC has second = 0 — so the local
and UTC placeholder sets are not computed from one single instant. -/
theorem claim_C1_divergence_eval :
    lookupOk eW envSplitSecond "extra.time.now.second" = some (RVal.int 0) ∧
      lookupOk eW envSplitSecond "extra.time.now.utc.second" = some (RVal.int 1) ∧
      GoTime.second (GoTime.toUTC envSplitSecond.now1) = 0 ∧
      GoTime.second envSplitSecond.now1 = 0 :=
  ⟨rfl, rfl, rfl, rfl⟩

theorem rget_setTimePlaceholders_congr (e : ExtraPlaceholders) (t : GoTime) (u : Bool)
    (k : String) (r r2 : Replacer) (h : rget k r = rget k r2) :
    rget k (setTimePlaceholders e r t u) = rget k (setTimePlaceholders e r2 t u) := by
  simp only [setTimePlaceholders, Rset, rget]
  rw [h]

theorem rget_setHostinfoPlaceholders_ne (env : Env) (r : Replacer) (k : String)
    (hu : ¬ k = "extra.hostinfo.uptime") :
    rget k (setHostinfoPlaceholders env r) = rget k r := by
  rcases h : env.uptimeSec with _ | u <;>
    simp only [setHostinfoPlaceholders, h, Rset, rget] <;>
      rw [if_neg hu]

theorem rget_setLoadavgPlaceholders_ne (env : Env) (r : Replacer) (k : String)
    (h1 : ¬ k = "extra.loadavg.1") (h5 : ¬ k = "extra.loadavg.5")
    (h15 : ¬ k = "extra.loadavg.15") :
    rget k (setLoadavgPlaceholders env r) = rget k r := by
  rcases h : env.loadavg with _ | ⟨l1, l5, l15⟩
  · simp only [setLoadavgPlaceholders, h]
  · simp only [setLoadavgPlaceholders, h, Rset, rget]
    rw [if_neg h15, if_neg h5, if_neg h1]

/-- C6: for every request whose replacer is present: if the load-average
lookup fails (whatever the uptime lookup did), the three `extra.loadavg`
keys are left exactly as they were in the incoming replacer (omitted, not
defaulted); if the uptime lookup fails (whatever the load-average lookup
did), `extra.hostinfo.uptime` holds the literal sentinel string; and the
two OS lookup results never influence whether the request aborts nor the
value of any other placeholder key, so in both failure cases the
computation of all other keys proceeds exactly as on a request whose
lookups succeed. -/
theorem claim_C6_os_failure_degradation (e : ExtraPlaceholders) (env : Env) (r0 : Replacer)
    (hrepl : env.repl = some r0) :
    (env.loadavg = none → (ServeHTTP e env).aborted = false →
      lookupOk e env "extra.loadavg.1" = rget "extra.loadavg.1" r0 ∧
        lookupOk e env "extra.loadavg.5" = rget "extra.loadavg.5" r0 ∧
          lookupOk e env "extra.loadavg.15" = rget "extra.loadavg.15" r0) ∧
      (env.uptimeSec = none → (ServeHTTP e env).aborted = false →
        lookupOk e env "extra.hostinfo.uptime" = some (RVal.str "error retrieving uptime")) ∧
      (∀ la us,
        ((ServeHTTP e { env with loadavg := la, uptimeSec := us }).aborted
            = (ServeHTTP e env).aborted) ∧
          (∀ k, ¬ k = "extra.loadavg.1" → ¬ k = "extra.loadavg.5" →
            ¬ k = "extra.loadavg.15" → ¬ k = "extra.hostinfo.uptime" →
            (ServeHTTP e env).aborted = false →
            lookupOk e { env with loadavg := la, uptimeSec := us } k = lookupOk e env k)) := by
  refine ⟨?_, ?_, ?_⟩
  · intro hla hna
    have hnp : ¬ panics e := by
      intro hp
      rw [ServeHTTP_eq e env r0 hrepl, if_pos hp] at hna
      exact absurd hna (by simp [Outcome.aborted])
    refine ⟨?_, ?_, ?_⟩ <;> rw [lookupOk_eq e env r0 hrepl hnp] <;>
      rcases hus : env.uptimeSec with _ | u <;>
        simp only [finalReplacer, setLoadavgPlaceholders, setHostinfoPlaceholders, hla, hus] <;>
          rfl
  · intro hus hna
    have hnp : ¬ panics e := by
      intro hp
      rw [ServeHTTP_eq e env r0 hrepl, if_pos hp] at hna
      exact absurd hna (by simp [Outcome.aborted])
    rw [lookupOk_eq e env r0 hrepl hnp]
    rcases hla : env.loadavg with _ | ⟨l1, l5, l15⟩ <;>
      simp only [finalReplacer, setLoadavgPlaceholders, setHostinfoPlaceholders, hla, hus] <;>
        rfl
  · intro la us
    have hreplF : ({ env with loadavg := la, uptimeSec := us } : Env).repl = some r0 := hrepl
    constructor
    · rw [ServeHTTP_eq e _ r0 hreplF, ServeHTTP_eq e env r0 hrepl]
      by_cases hp : panics e
      · rw [if_pos hp, if_pos hp]
      · rw [if_neg hp, if_neg hp]
        rfl
    · intro k h1 h5 h15 hu hna
      have hnp : ¬ panics e := by
        intro hp
        rw [ServeHTTP_eq e env r0 hrepl, if_pos hp] at hna
        exact absurd hna (by simp [Outcome.aborted])
      rw [lookupOk_eq e _ r0 hreplF hnp, lookupOk_eq e env r0 hrepl hnp]
      apply rget_setTimePlaceholders_congr
      apply rget_setTimePlaceholders_congr
      rw [rget_setHostinfoPlaceholders_ne _ _ _ hu, rget_setHostinfoPlaceholders_ne _ _ _ hu,
        rget_setLoadavgPlaceholders_ne _ _ _ h1 h5 h15,
        rget_setLoadavgPlaceholders_ne _ _ _ h1 h5 h15]
      rfl

theorem claim_C6_witness :
    (lookupOk eW envLoadFail "extra.loadavg.1" = rget "extra.loadavg.1" [] ∧
        lookupOk eW envLoadFail "extra.loadavg.15" = rget "extra.loadavg.15" []) ∧
      lookupOk eW { envW with uptimeSec := none } "extra.hostinfo.uptime"
          = some (RVal.str "error retrieving uptime") :=
  ⟨⟨((claim_C6_os_failure_degradation eW envLoadFail [] rfl).1 rfl rfl).1,
      ((claim_C6_os_failure_degradation eW envLoadFail [] rfl).1 rfl rfl).2.2⟩,
    (claim_C6_os_failure_degradation eW { envW with uptimeSec := none } [] rfl).2.1 rfl rfl⟩

/-- C7 counterexample: one fixed configuration and two invocations that
differ only in whether the load-average lookup succeeded; they produce
different placeholder key sets, so the key set is not determined by the
configuration alone. -/
theorem claim_C7_counterexample :
    ¬ producedKeys eW envW = producedKeys eW envLoadFail := by
  decide

/-- C7 (amended): the placeholder key set of an invocation is determined by
the configuration together with the success of the load-average lookup:
any two invocations of one configuration whose `load.Avg()` calls either
both succeed or both fail produce exactly the same key set, whatever every
other input is. -/
theorem claim_C7_amended_key_set (e : ExtraPlaceholders) (env1 env2 : Env)
    (h : env1.loadavg.isSome = env2.loadavg.isSome) :
    producedKeys e env1 = producedKeys e env2 := by
  obtain ⟨o1, a1, b1, f1, n1, la1, us1, t1, t1b⟩ := env1
  obtain ⟨o2, a2, b2, f2, n2, la2, us2, t2, t2b⟩ := env2
  unfold producedKeys
  rw [ServeHTTP_eq e _ [] rfl, ServeHTTP_eq e _ [] rfl]
  by_cases hp : panics e
  · rw [if_pos hp, if_pos hp]
  · rw [if_neg hp, if_neg hp]
    rcases la1 with _ | p1 <;> rcases la2 with _ | p2
    · rcases us1 with _ | u1 <;> rcases us2 with _ | u2 <;> rfl
    · exact absurd h (by simp)
    · exact absurd h (by simp)
    · rcases us1 with _ | u1 <;> rcases us2 with _ | u2 <;> rfl

theorem claim_C7_witness :
    producedKeys eW envW = producedKeys eFall { envW with uptimeSec := none } :=
  claim_C7_amended_key_set eW envW { envW with uptimeSec := none } rfl
